import Mathlib

/-!
Verification of the job/cache core of the youtube-to-text web app
(`src/app.py`).  The Python source is shallowly embedded: the in-memory
`jobs` dict and the persistent `transcript_cache` are association lists,
the background task `run_job` is a pure state transformer whose external
effects (`process_video`, `save_cache` file I/O, the progress callback)
are passed in as explicit outcomes, and each HTTP handler is a pure
function from its inputs to an outcome value.
-/

namespace YtText

/-- The fields of the external `process_video` result that the app relies on
(`src/app.py` status endpoint reads `title`, `markdown`, `filename`). -/
structure Result where
  title : String
  markdown : String
  filename : String
deriving DecidableEq, Repr

/-- Job status strings used in `src/app.py`: "processing", "completed", "error". -/
inductive JobStatus where
  | processing
  | completed
  | error
deriving DecidableEq, Repr

/-- One record of the in-memory `jobs` dict (`src/app.py` lines 100-105, 115-120). -/
structure Job where
  status : JobStatus
  progress : String
  result : Option Result
  error : Option String
deriving DecidableEq, Repr

/-- The persistent `transcript_cache`: a mapping from video id to result. -/
abbrev Cache := List (String × Result)

/-- The in-memory `jobs` table: a mapping from job id to job record. -/
abbrev Jobs := List (String × Job)

/-- Python dict assignment `d[k] = v` modelled on an association list: the new
binding shadows any older binding for `k` (lookup-equivalent to in-place update). -/
def dictInsert {α : Type} (k : String) (v : α) (m : List (String × α)) :
    List (String × α) :=
  (k, v) :: m

/-- Python field mutation `d[k]["field"] = ...` on an existing record: rewrite the
value stored under `k`, leaving other keys unchanged. -/
def updateJob (jid : String) (f : Job → Job) (jobs : Jobs) : Jobs :=
  jobs.map (fun p => if p.1 = jid then (p.1, f p.2) else p)

/-- Outcome of the external collaborator `extract_video_id(url)`: either a video
id or a raised exception carrying a message (`src/app.py` lines 92-95). -/
inductive Extracted where
  | id (vid : String)
  | failed (msg : String)
deriving DecidableEq, Repr

/-- Outcome of the external collaborator `process_video(url, api_key, cb)`:
either a structured result or a raised exception with message `str(e)`. -/
inductive ProcOutcome where
  | success (r : Result)
  | raised (msg : String)
deriving DecidableEq, Repr

/-- Outcome of the file write performed by `save_cache`: success, or an I/O
exception with message `str(e)` (disk full, permissions, ...). -/
inductive SaveOutcome where
  | saved
  | raised (msg : String)
deriving DecidableEq, Repr

/-- What the `POST /transcribe` handler returns: an `HTTPException(400, ...)`,
an `HTTPException(500, ...)`, or a `TranscribeResponse(job_id=...)` together
with the created job record and whether a background task was scheduled. -/
inductive TranscribeOutcome where
  | clientError (detail : String)
  | serverError (detail : String)
  | accepted (jobId : String) (job : Job) (scheduled : Bool)
deriving DecidableEq, Repr

/-- What the `GET /status/job_id` handler returns: 404, or the response dict
with `status`, `progress`, the result summary iff completed, and the error
message iff errored (`src/app.py` lines 144-165). -/
inductive StatusOutcome where
  | notFound
  | found (status : JobStatus) (progress : String)
      (result : Option (String × String × String)) (error : Option String)
deriving DecidableEq, Repr

/-- The whole mutable state of the process: the `jobs` dict and the in-memory
`transcript_cache` dict. -/
structure AppState where
  jobs : Jobs
  cache : Cache
deriving DecidableEq, Repr

/-- Models Python `str.strip()` as applied to the submitted URL
(`src/app.py` line 86): drop leading and trailing whitespace. -/
def py_strip (s : String) : String :=
  String.mk (((s.toList.dropWhile Char.isWhitespace).reverse.dropWhile
    Char.isWhitespace).reverse)

/-- `load_cache` (`src/app.py` lines 41-49).  The file system is `Option String`
(missing file or its content); `deser` models `json.load`, whose failure
(`none`) is swallowed by the bare `except:` returning `{}`. -/
def load_cache (deser : String → Option Cache) (fs : Option String) : Cache :=
  match fs with
  | none => []
  | some s =>
    match deser s with
    | some m => m
    | none => []

/-- `save_cache` (`src/app.py` lines 52-55) when the write succeeds: the backing
file afterwards holds exactly the serialization of the mapping; `ser` models
`json.dump`. -/
def save_cache (ser : Cache → String) (cache : Cache) : Option String :=
  some (ser cache)

/-- The on-disk content of the backing file after each step of `save_cache`
(`src/app.py` lines 52-55): `open(CACHE_FILE, "w")` truncates the file to
empty, then `json.dump(cache, f)` writes the serialized mapping.  A save that
fails during the dump leaves the file in the first state (or a partial prefix
of the second); only a completed save reaches the last state. -/
def save_cache_file_states (ser : Cache → String) (cache : Cache) :
    List (Option String) :=
  [some "", some (ser cache)]

/-- The `POST /transcribe` handler (`src/app.py` lines 83-141).
`extract_video_id` is the external id-resolution collaborator, `apiKey` is
`os.environ.get("GOOGLE_API_KEY")`, `freshId` is the generated `uuid4`.
Returns the HTTP outcome and the updated state; the `scheduled` flag of
`accepted` records whether `background_tasks.add_task(run_job)` was called. -/
def transcribe (extract_video_id : String → Extracted) (apiKey : Option String)
    (st : AppState) (reqUrl freshId : String) : TranscribeOutcome × AppState :=
  let url := py_strip reqUrl
  if url = "" then
    (.clientError "URL is required", st)
  else
    match extract_video_id url with
    | .failed e => (.clientError e, st)
    | .id vid =>
      match st.cache.lookup vid with
      | some cached =>
        let job : Job :=
          { status := .completed, progress := "Loaded from cache",
            result := some cached, error := none }
        (.accepted freshId job false, { st with jobs := dictInsert freshId job st.jobs })
      | none =>
        match apiKey with
        | none => (.serverError "GOOGLE_API_KEY not configured", st)
        | some _ =>
          let job : Job :=
            { status := .processing, progress := "Starting...",
              result := none, error := none }
          (.accepted freshId job true, { st with jobs := dictInsert freshId job st.jobs })

/-- The effect of the `progress_callback` writes issued by `process_video`
during its run (`src/app.py` lines 126-127): each message overwrites
`jobs[job_id]["progress"]`, so after the call only the last message is
visible. -/
def set_progress (jid : String) (msgs : List String) (jobs : Jobs) : Jobs :=
  match msgs.getLast? with
  | none => jobs
  | some m => updateJob jid (fun j => { j with progress := m }) jobs

/-- The background task `run_job` (`src/app.py` lines 123-137).  `proc` is the
outcome of the external `process_video` call (with `msgs` the progress
messages it emitted), `save` the outcome of the `save_cache` file write.
The whole body runs inside one `try/except Exception`: a raised
`process_video` skips the success assignments, and a raised `save_cache`
is caught by the same handler AFTER the success assignments have run.
Returns the new state together with the list of values written to the
job's `status` field, in program order. -/
def run_job (jid vid : String) (proc : ProcOutcome) (save : SaveOutcome)
    (msgs : List String) (st : AppState) : AppState × List JobStatus :=
  let jobs0 := set_progress jid msgs st.jobs
  match proc with
  | .raised e =>
    ({ st with
        jobs := updateJob jid
          (fun j => { j with status := .error, error := some e }) jobs0 },
      [JobStatus.error])
  | .success r =>
    let jobs1 := updateJob jid
      (fun j => { j with status := .completed, result := some r }) jobs0
    let cache1 := dictInsert vid r st.cache
    match save with
    | .saved => ({ jobs := jobs1, cache := cache1 }, [JobStatus.completed])
    | .raised e =>
      ({ jobs := updateJob jid
            (fun j => { j with status := .error, error := some e }) jobs1,
         cache := cache1 },
        [JobStatus.completed, JobStatus.error])

/-- The `GET /status/job_id` handler (`src/app.py` lines 144-165): 404 on an
unknown id; otherwise status and progress, with the result summary fields
attached iff completed and the error message attached iff errored. -/
def status_endpoint (jobs : Jobs) (jid : String) : StatusOutcome :=
  match jobs.lookup jid with
  | none => .notFound
  | some j =>
    match j.status with
    | .processing => .found .processing j.progress none none
    | .completed =>
      .found .completed j.progress
        (j.result.map (fun r => (r.title, r.markdown, r.filename))) none
    | .error => .found .error j.progress none j.error

/-- The fixed font allow-list of the PDF download endpoint
(`src/app.py` lines 213-222). -/
def allowed_fonts : List String :=
  ["Arial", "Calibri", "Comic Sans MS", "Garamond", "Georgia", "Tahoma",
   "Times New Roman", "Wingdings"]

/-- The font-sanitization step of `download_pdf` (`src/app.py` lines 223-224):
a value outside the allow-list is replaced by the default before the name is
interpolated into the generated CSS. -/
def download_pdf_font (font : String) : String :=
  if font ∈ allowed_fonts then font else "Times New Roman"

/-- Models Python `filename.replace(".md", ".pdf")` (`src/app.py` line 287):
left-to-right, non-overlapping replacement of every occurrence of the
three-character pattern. -/
def replace_md_pdf : List Char → List Char
  | c1 :: c2 :: c3 :: rest =>
    if c1 = '.' ∧ c2 = 'm' ∧ c3 = 'd' then
      '.' :: 'p' :: 'd' :: 'f' :: replace_md_pdf rest
    else
      c1 :: replace_md_pdf (c2 :: c3 :: rest)
  | s => s

/-- Decides whether the character list contains the contiguous substring
".md" (used to state that the replacement rewrote every occurrence). -/
def has_md_occurrence : List Char → Bool
  | c1 :: c2 :: c3 :: rest =>
    if c1 = '.' ∧ c2 = 'm' ∧ c3 = 'd' then true
    else has_md_occurrence (c2 :: c3 :: rest)
  | _ => false

/-- The derived PDF attachment name, `result["filename"].replace(".md", ".pdf")`
(`src/app.py` line 287). -/
def pdf_filename (filename : String) : String :=
  String.mk (replace_md_pdf filename.toList)

/-- Models Python `s.encode("ascii", "ignore").decode()` (`src/app.py`
line 288): drop every non-ASCII character. -/
def ascii_ignore (s : String) : String :=
  String.mk (s.toList.filter (fun c => c.toNat < 128))

/-- The ASCII-safe PDF attachment filename with its fallback
(`src/app.py` lines 287-290). -/
def safe_pdf_filename (filename : String) : String :=
  let p := pdf_filename filename
  let s := ascii_ignore p
  if s = "" then "transcript.pdf" else s

/-! Concrete fixtures used by the evaluation theorems and witnesses. -/

/-- A concrete completed result. -/
def r0 : Result := { title := "Talk", markdown := "# Doc", filename := "talk.md" }

/-- A freshly created job, as `transcribe` creates it on a cache miss. -/
def job0 : Job :=
  { status := .processing, progress := "Starting...", result := none, error := none }

/-- A state holding one in-flight job and an empty cache. -/
def st0 : AppState := { jobs := [("j1", job0)], cache := [] }

/-! Helper lemmas about the association-list operations. -/

/-- Looking up the key just inserted returns the inserted value. -/
theorem lookup_dictInsert_self {α : Type} (k : String) (v : α)
    (m : List (String × α)) : (dictInsert k v m).lookup k = some v := by
  simp [dictInsert, List.lookup]

/-- Rewriting the record stored under `jid` commutes with looking `jid` up. -/
theorem lookup_updateJob (jid : String) (f : Job → Job) (jobs : Jobs) :
    (updateJob jid f jobs).lookup jid = (jobs.lookup jid).map f := by
  induction jobs with
  | nil => rfl
  | cons p t ih =>
    obtain ⟨k, v⟩ := p
    by_cases h : k = jid
    · subst h
      simp [updateJob, List.lookup_cons, ih]
    · have hne : (jid == k) = false := by
        rw [beq_eq_false_iff_ne]
        exact fun hh => h hh.symm
      simp only [updateJob, List.map_cons] at ih ⊢
      simp [List.lookup_cons, h, hne]
      simpa [updateJob] using ih

/-- The progress-callback writes only change the `progress` field of the job,
to the last emitted message. -/
theorem lookup_set_progress (jid : String) (msgs : List String) (jobs : Jobs) :
    (set_progress jid msgs jobs).lookup jid
      = (jobs.lookup jid).map
          (fun j => { j with progress := msgs.getLast?.getD j.progress }) := by
  unfold set_progress
  cases hm : msgs.getLast? with
  | none => cases h : jobs.lookup jid <;> simp [h]
  | some m => rw [lookup_updateJob]; cases h : jobs.lookup jid <;> simp [h]

/-- A successful `run_job` puts the result into the in-memory cache under the
video id, whether or not the disk save succeeds (the in-memory insert at
`src/app.py` line 133 precedes the `save_cache` call at line 134). -/
theorem run_job_success_cache (jid vid : String) (r : Result)
    (save : SaveOutcome) (msgs : List String) (st : AppState) :
    ((run_job jid vid (.success r) save msgs st).1).cache
      = dictInsert vid r st.cache := by
  cases save <;> rfl

/-! Claim theorems. -/

/-- C1: the claim says that when `process_video` succeeds but the subsequent
`save_cache` raises, the job is left `completed` with its result stored.  The
code disagrees: the `except` clause at `src/app.py` lines 135-137 also catches
the `save_cache` exception, overwriting the just-written `completed` status
with `error` and recording the save failure as the job's error — while the
result field keeps the successful result.  This theorem evaluates `run_job`
at that failing input: `process_video` returns `r0`, `save_cache` raises
"disk full", and the job ends in `error` state, result stored. -/
theorem c1_save_failure_flips_status_to_error :
    ((run_job "j1" "v1" (.success r0) (.raised "disk full") [] st0).1).jobs.lookup "j1"
      = some { status := JobStatus.error, progress := "Starting...",
               result := some r0, error := some "disk full" } := by decide

/-- C2: the claim says the background task mutates `status` at most once (so at
most two writes over the job's lifetime, counting creation).  At the same
failing input as C1 — `process_video` succeeds, then `save_cache` raises —
the task writes `status` twice, `completed` then `error`, so together with
the creation write the field is written three times and the job moves from
the terminal `completed` back out to `error`. -/
theorem c2_task_writes_status_twice_on_save_failure :
    (run_job "j1" "v1" (.success r0) (.raised "disk full") [] st0).2
        = [JobStatus.completed, JobStatus.error]
      ∧ ((run_job "j1" "v1" (.success r0) (.raised "disk full") [] st0).2).length = 2 := by
  decide

/-- C4: any exception raised by `process_video` inside the background task is
caught by `run_job` (which, being a total function of the outcome, never
propagates it), its message is recorded as the job's `error` field, the
status becomes the terminal `error` state, the cache is untouched, and the
status endpoint reports the `error` state with the message. -/
theorem c4_process_exception_recorded (jid vid msg : String) (save : SaveOutcome)
    (msgs : List String) (st : AppState) (j : Job)
    (hj : st.jobs.lookup jid = some j) :
    ((run_job jid vid (.raised msg) save msgs st).1).jobs.lookup jid
        = some { j with progress := msgs.getLast?.getD j.progress,
                        status := .error, error := some msg }
  ∧ status_endpoint ((run_job jid vid (.raised msg) save msgs st).1).jobs jid
        = .found .error (msgs.getLast?.getD j.progress) none (some msg)
  ∧ ((run_job jid vid (.raised msg) save msgs st).1).cache = st.cache := by
  have h1 : ((run_job jid vid (.raised msg) save msgs st).1).jobs.lookup jid
      = some { j with progress := msgs.getLast?.getD j.progress,
                      status := .error, error := some msg } := by
    simp only [run_job]
    rw [lookup_updateJob, lookup_set_progress, hj]
    rfl
  refine ⟨h1, ?_, rfl⟩
  unfold status_endpoint
  rw [h1]

/-- Witness for C4 at a concrete input: a job whose `process_video` raises
"boom" after reporting progress once ends in `error` state with the message
recorded and visible through the status endpoint. -/
theorem c4_witness :
    ((run_job "j1" "v1" (.raised "boom") .saved ["downloading"] st0).1).jobs.lookup "j1"
        = some { status := .error, progress := "downloading",
                 result := none, error := some "boom" }
  ∧ status_endpoint ((run_job "j1" "v1" (.raised "boom") .saved ["downloading"] st0).1).jobs "j1"
        = .found .error "downloading" none (some "boom") := by
  have h := c4_process_exception_recorded "j1" "v1" "boom" .saved ["downloading"]
    st0 job0 (by decide)
  exact ⟨h.1, h.2.1⟩

/-- C3: cache-hit idempotence.  If a first submission for video id `vid` has
completed (its `run_job` ran with a successful `process_video` result `r`,
populating the in-memory cache — regardless of whether the disk save
succeeded), then submitting any other URL `u2` that resolves to the same
`vid` returns an immediately `completed` job carrying the identical result
`r`, and schedules no background work. -/
theorem c3_cache_hit_idempotent (extract_video_id : String → Extracted)
    (apiKey : Option String) (st : AppState) (u2 jid jid2 vid : String)
    (r : Result) (save : SaveOutcome) (msgs : List String)
    (h1 : py_strip u2 ≠ "") (h2 : extract_video_id (py_strip u2) = .id vid) :
    (transcribe extract_video_id apiKey
        ((run_job jid vid (.success r) save msgs st).1) u2 jid2).1
      = .accepted jid2
          { status := .completed, progress := "Loaded from cache",
            result := some r, error := none } false := by
  have hc := run_job_success_cache jid vid r save msgs st
  simp only [transcribe, h2, hc, lookup_dictInsert_self, if_neg h1]

/-- A concrete id-resolution function for the C3 witness: both URL forms
resolve to the video id "abc123". -/
def extract0 : String → Extracted := fun u =>
  if u = "https://youtu.be/abc123" ∨ u = "https://www.youtube.com/watch?v=abc123" then
    .id "abc123"
  else .failed "Could not extract video ID"

/-- Witness for C3: after a job for "abc123" (submitted via the long URL form)
completes with result `r0`, submitting the short URL form returns an
immediately completed job with the identical result and no scheduled work. -/
theorem c3_witness :
    (transcribe extract0 none
        ((run_job "j1" "abc123" (.success r0) .saved ["Cleaning"] st0).1)
        "https://youtu.be/abc123" "j2").1
      = .accepted "j2"
          { status := .completed, progress := "Loaded from cache",
            result := some r0, error := none } false :=
  c3_cache_hit_idempotent extract0 none st0 "https://youtu.be/abc123" "j1" "j2"
    "abc123" r0 .saved ["Cleaning"] (by decide) (by decide)

/-- C5 counterexample: the claim — during `save_cache`, the backing file is
never truncated before the new content is fully prepared, so every file
state a failed save can leave behind equals the prior content — is false:
`open(CACHE_FILE, "w")` truncates immediately, so with prior content "old"
the state after the open is the empty file, not "old". -/
theorem c5_counterexample :
    ¬ ∀ (ser : Cache → String) (c : Cache) (prior : Option String),
        ∀ s ∈ (save_cache_file_states ser c).dropLast, s = prior := by
  intro h
  have := h (fun _ => "") [] (some "old") (some "")
    (by simp [save_cache_file_states])
  exact absurd this (by decide)

/-- C5 amended: `save_cache` opens the backing file in truncating write mode
before the new content is written, so a save interrupted during the write
leaves the truncated file, not any nonempty prior copy; the prior copy
survives only when the save completes, after which the file holds exactly
the new serialized mapping. -/
theorem c5_truncate_then_write (ser : Cache → String) (c : Cache)
    (prior : Option String) (h : prior ≠ some "") :
    (∀ s ∈ (save_cache_file_states ser c).dropLast, s ≠ prior)
  ∧ (save_cache_file_states ser c).getLast? = some (some (ser c)) := by
  constructor
  · intro s hs
    simp [save_cache_file_states] at hs
    rw [hs]
    exact fun hh => h hh.symm
  · rfl

/-- Witness for C5's amended statement at a concrete serializer, mapping and
nonempty prior file content. -/
theorem c5_witness :
    (∀ s ∈ (save_cache_file_states (fun _ => "cachedata") []).dropLast,
        s ≠ some "old")
  ∧ (save_cache_file_states (fun _ => "cachedata") []).getLast?
        = some (some "cachedata") :=
  c5_truncate_then_write (fun _ => "cachedata") [] (some "old") (by decide)

/-- C6: cache persistence round-trips.  `save_cache` writes exactly the
serialization of the mapping and `load_cache` returns exactly what the
deserializer recovers from the file, so whenever the external `json`
collaborator satisfies its `loads(dumps(m)) = m` contract (hypothesis `h`),
loading immediately after saving reproduces the identical mapping. -/
theorem c6_cache_round_trip (ser : Cache → String) (deser : String → Option Cache)
    (m : Cache) (h : deser (ser m) = some m) :
    load_cache deser (save_cache ser m) = m := by
  simp [load_cache, save_cache, h]

/-- A concrete serializer for the C6 witness. -/
def ser0 : Cache → String := fun _ => "serialized"

/-- A concrete deserializer for the C6 witness, inverse to `ser0` on the
witness mapping. -/
def deser0 : String → Option Cache := fun s =>
  if s = "serialized" then some [("abc123", r0)] else none

/-- Witness for C6 at a concrete one-entry mapping. -/
theorem c6_witness :
    load_cache deser0 (save_cache ser0 [("abc123", r0)]) = [("abc123", r0)] :=
  c6_cache_round_trip ser0 deser0 [("abc123", r0)] (by decide)

/-- C9: `load_cache` is a total function (the bare `except:` swallows every
parse failure and the existence check handles the missing file), returning
the empty mapping when the backing file is missing and when its content
fails to parse — startup cannot crash on a missing or corrupt cache file. -/
theorem c9_load_cache_never_fails (deser : String → Option Cache) :
    load_cache deser none = []
  ∧ ∀ s, deser s = none → load_cache deser (some s) = [] := by
  refine ⟨rfl, ?_⟩
  intro s h
  simp [load_cache, h]

/-- Witness for C9: with a deserializer that rejects everything (any parse
failure), both the missing file and a corrupt file load as the empty map. -/
theorem c9_witness :
    load_cache (fun _ => none) none = []
  ∧ load_cache (fun _ => none) (some "corrupt bytes") = [] :=
  ⟨(c9_load_cache_never_fails (fun _ => none)).1,
   (c9_load_cache_never_fails (fun _ => none)).2 "corrupt bytes" rfl⟩

/-- C8: the submit handler's validation and error taxonomy.  A URL that is
empty after stripping whitespace is rejected with a client error; a URL on
which id extraction fails is rejected with a client error carrying the
exception message; when the id is cached the submission succeeds with an
already-completed job and no scheduled work, for any credential value
including an absent one; when the id is not cached and the credential
environment variable is absent the handler fails with the
server-configuration error, which is a distinct outcome from every client
error. -/
theorem c8_transcribe_paths (extract_video_id : String → Extracted)
    (apiKey : Option String) (st : AppState) (u fresh : String) :
    (py_strip u = "" →
        (transcribe extract_video_id apiKey st u fresh).1
          = .clientError "URL is required")
  ∧ (∀ e, py_strip u ≠ "" → extract_video_id (py_strip u) = .failed e →
        (transcribe extract_video_id apiKey st u fresh).1 = .clientError e)
  ∧ (∀ vid cached, py_strip u ≠ "" → extract_video_id (py_strip u) = .id vid →
        st.cache.lookup vid = some cached →
        (transcribe extract_video_id apiKey st u fresh).1
          = .accepted fresh
              { status := .completed, progress := "Loaded from cache",
                result := some cached, error := none } false)
  ∧ (∀ vid, py_strip u ≠ "" → extract_video_id (py_strip u) = .id vid →
        st.cache.lookup vid = none → apiKey = none →
        (transcribe extract_video_id apiKey st u fresh).1
          = .serverError "GOOGLE_API_KEY not configured")
  ∧ (∀ d e, TranscribeOutcome.serverError d ≠ TranscribeOutcome.clientError e) := by
  refine ⟨?_, ?_, ?_, ?_, ?_⟩
  · intro h
    simp only [transcribe, if_pos h]
  · intro e h he
    simp only [transcribe, if_neg h, he]
  · intro vid cached h hv hc
    simp only [transcribe, if_neg h, hv, hc]
  · intro vid h hv hc hk
    simp only [transcribe, if_neg h, hv, hc, hk]
  · intro d e h
    exact TranscribeOutcome.noConfusion h

/-- Witness for C8, exercising every hypothesis: an all-whitespace URL and an
unrecognized URL are client errors; a cached video id succeeds with no
credential configured; an uncached one without a credential is the server
configuration error. -/
theorem c8_witness :
    (transcribe extract0 none st0 "   " "j9").1 = .clientError "URL is required"
  ∧ (transcribe extract0 none st0 "https://example.com/other" "j9").1
      = .clientError "Could not extract video ID"
  ∧ (transcribe extract0 none
        { jobs := [], cache := [("abc123", r0)] } "https://youtu.be/abc123" "j9").1
      = .accepted "j9"
          { status := .completed, progress := "Loaded from cache",
            result := some r0, error := none } false
  ∧ (transcribe extract0 none st0 "https://youtu.be/abc123" "j9").1
      = .serverError "GOOGLE_API_KEY not configured" :=
  ⟨(c8_transcribe_paths extract0 none st0 "   " "j9").1 (by decide),
   (c8_transcribe_paths extract0 none st0 "https://example.com/other" "j9").2.1
      "Could not extract video ID" (by decide) (by decide),
   (c8_transcribe_paths extract0 none
      { jobs := [], cache := [("abc123", r0)] } "https://youtu.be/abc123" "j9").2.2.1
      "abc123" r0 (by decide) (by decide) (by decide),
   (c8_transcribe_paths extract0 none st0 "https://youtu.be/abc123" "j9").2.2.2.1
      "abc123" (by decide) (by decide) (by decide) rfl⟩

/-- C7: font sanitization for the PDF download.  For every requested font
value, the name actually interpolated into the generated stylesheet is a
member of the fixed eight-entry allow-list, and any value outside the
allow-list is replaced by the default "Times New Roman" rather than being
embedded verbatim. -/
theorem c7_pdf_font_allowlisted (font : String) :
    download_pdf_font font ∈ allowed_fonts
  ∧ (font ∉ allowed_fonts → download_pdf_font font = "Times New Roman")
  ∧ allowed_fonts.length = 8 := by
  refine ⟨?_, ?_, rfl⟩
  · unfold download_pdf_font
    split
    · assumption
    · decide
  · intro h
    unfold download_pdf_font
    rw [if_neg h]

/-- Witness for C7: a CSS-injection attempt is not in the allow-list and is
replaced by the default font. -/
theorem c7_witness :
    ("PdfFont; body color: red" ∉ allowed_fonts)
  ∧ download_pdf_font "PdfFont; body color: red" = "Times New Roman" :=
  ⟨by decide,
   (c7_pdf_font_allowlisted "PdfFont; body color: red").2.1 (by decide)⟩

/-- The replacement never changes the first character of the name. -/
theorem replace_md_pdf_head (s : List Char) :
    (replace_md_pdf s).head? = s.head? := by
  induction s using replace_md_pdf.induct with
  | case1 c1 c2 c3 rest h ih =>
    simp only [replace_md_pdf, if_pos h]
    simp [h.1]
  | case2 c1 c2 c3 rest h ih =>
    simp only [replace_md_pdf, if_neg h]
    simp
  | case3 s h =>
    cases s with
    | nil => rfl
    | cons a t =>
      cases t with
      | nil => rfl
      | cons b t2 =>
        cases t2 with
        | nil => rfl
        | cons c t3 => exact (h a b c t3 rfl).elim

/-- Prepending a character cannot create a ".md" occurrence unless the new
character and the next two spell it out. -/
theorem has_md_cons_general (x : Char) (l : List Char)
    (h : ¬ (x = '.' ∧ l.head? = some 'm' ∧ l.tail.head? = some 'd'))
    (hl : has_md_occurrence l = false) :
    has_md_occurrence (x :: l) = false := by
  cases l with
  | nil => rfl
  | cons a t =>
    cases t with
    | nil => rfl
    | cons b t2 =>
      show has_md_occurrence (x :: a :: b :: t2) = false
      simp only [has_md_occurrence]
      rw [if_neg]
      · exact hl
      · rintro ⟨h1, h2, h3⟩
        exact h ⟨h1, by simp [h2], by simp [h3]⟩

/-- After the replacement, no occurrence of ".md" remains anywhere in the
name: every occurrence, internal ones included, was rewritten. -/
theorem has_md_replace (s : List Char) :
    has_md_occurrence (replace_md_pdf s) = false := by
  induction s using replace_md_pdf.induct with
  | case1 c1 c2 c3 rest h ih =>
    simp only [replace_md_pdf, if_pos h]
    apply has_md_cons_general
    · rintro ⟨_, h2, _⟩
      rw [List.head?_cons, Option.some.injEq] at h2
      exact absurd h2 (by decide)
    · apply has_md_cons_general
      · rintro ⟨hx, _⟩
        exact absurd hx (by decide)
      · apply has_md_cons_general
        · rintro ⟨hx, _⟩
          exact absurd hx (by decide)
        · apply has_md_cons_general
          · rintro ⟨hx, _⟩
            exact absurd hx (by decide)
          · exact ih
  | case2 c1 c2 c3 rest h ih =>
    simp only [replace_md_pdf, if_neg h]
    apply has_md_cons_general _ _ ?hh ih
    case hh =>
      rintro ⟨h1, h2, h3⟩
      rw [replace_md_pdf_head, List.head?_cons, Option.some.injEq] at h2
      subst h1
      subst h2
      cases rest with
      | nil =>
        simp [replace_md_pdf] at h3
        exact h ⟨rfl, rfl, h3⟩
      | cons c4 rest2 =>
        have hu : replace_md_pdf ('m' :: c3 :: c4 :: rest2)
            = 'm' :: replace_md_pdf (c3 :: c4 :: rest2) := by
          simp only [replace_md_pdf]
          rw [if_neg]
          rintro ⟨hm, _⟩
          exact absurd hm (by decide)
        rw [hu, List.tail_cons, replace_md_pdf_head, List.head?_cons,
          Option.some.injEq] at h3
        exact h ⟨rfl, rfl, h3⟩
  | case3 s h =>
    cases s with
    | nil => rfl
    | cons a t =>
      cases t with
      | nil => rfl
      | cons b t2 =>
        cases t2 with
        | nil => rfl
        | cons c t3 => exact (h a b c t3 rfl).elim

/-- C10: the PDF attachment filename is the job's markdown filename with every
occurrence of ".md" — internal ones included — replaced by ".pdf" (so no
".md" occurrence survives in the derived name), and when stripping
non-ASCII characters from the derived name yields the empty string, the
fallback "transcript.pdf" is used; otherwise the stripped derived name is
used. -/
theorem c10_pdf_filename_derivation (f : String) :
    has_md_occurrence (pdf_filename f).toList = false
  ∧ (ascii_ignore (pdf_filename f) = "" →
        safe_pdf_filename f = "transcript.pdf")
  ∧ (ascii_ignore (pdf_filename f) ≠ "" →
        safe_pdf_filename f = ascii_ignore (pdf_filename f)) := by
  refine ⟨?_, ?_, ?_⟩
  · exact has_md_replace f.toList
  · intro h
    simp [safe_pdf_filename, h]
  · intro h
    simp [safe_pdf_filename, h]

/-- Witness for C10: a name with an internal ".md" is rewritten at both
occurrences, and a fully non-ASCII name falls back to "transcript.pdf". -/
theorem c10_witness :
    safe_pdf_filename "a.mdb.md" = "a.pdfb.pdf"
  ∧ safe_pdf_filename "你好" = "transcript.pdf" := by
  have h1 := (c10_pdf_filename_derivation "a.mdb.md").2.2 (by decide)
  have h2 := (c10_pdf_filename_derivation "你好").2.1 (by decide)
  exact ⟨by rw [h1]; decide, h2⟩

end YtText
